import Mathlib

/-!
Shallow embedding of the MediBuddy real-time engine
(`src/realtime_engine.py`): the atomic knowledge graph (`KnowledgeGraph`),
its change validator (`ChangeValidator`) and the importance scoring,
together with proofs about the behaviour of `upsert_fact`,
`get_fact`, `get_entity_facts`, `get_recent_changes`,
`validate`, `_apply_rules` and `score_importance`.

Modelling conventions:
* Python runtime values that appear as fact values are embedded as the
  inductive `Value` (numbers as `ℚ`, covering both `int` and `float`;
  booleans; strings; `None`).  Python `==` is embedded as `pyEq`, which
  equates booleans with their numeric values the way Python does.
* `datetime` timestamps are embedded as a logical clock of type `Int`;
  `datetime.now()` becomes an explicit `now` parameter and
  `timedelta(hours=h)` becomes the integer `h`.
* The Python `dict` keyed by the string `"entity_type:entity_id:field"`
  is embedded as an association list that mirrors Python dict semantics:
  updating an existing key keeps its position, a new key is appended at
  the end (insertion order is observable through `.items()` and hence
  through `get_entity_facts`).
* Subscriber callbacks are embedded as functions receiving the store's
  fact table (callbacks close over `self` in the Python code, so at the
  moment a callback runs it can read the already-mutated store) and the
  published fact, and either succeed or raise (`Except`).  The
  `try/except` around each callback in `_notify_subscribers` is embedded
  by recording a per-subscriber `NotifyOutcome` and continuing with the
  remaining subscribers.
-/

namespace MediBuddy

/-- Embedded Python runtime values used as fact values. -/
inductive Value where
  | num : ℚ → Value
  | bool : Bool → Value
  | str : String → Value
  | none : Value
deriving DecidableEq

/-- Numeric reading of a value, mirroring Python's treatment of `bool`
as a subtype of `int`; `Option.none` for values that are not numbers
(arithmetic or ordering on them raises `TypeError` in Python). -/
def Value.toNum? : Value → Option ℚ
  | .num q => some q
  | .bool b => some (if b then 1 else 0)
  | _ => Option.none

/-- Python structural equality `==` on embedded values: numbers compare
numerically, booleans compare equal to their numeric values
(`True == 1`), strings compare as strings, `None` equals only `None`. -/
def pyEq (a b : Value) : Bool :=
  match a, b with
  | .str x, .str y => x == y
  | .none, .none => true
  | .num x, .num y => x == y
  | .num x, .bool y => x == (if y then (1 : ℚ) else 0)
  | .bool x, .num y => (if x then (1 : ℚ) else 0) == y
  | .bool x, .bool y => x == y
  | _, _ => false

/-- Python truthiness: `0`, `False`, `""` and `None` are falsy. -/
def Value.isFalsy : Value → Bool
  | .num q => q == 0
  | .bool b => !b
  | .str s => s == ""
  | .none => true

/-- Embedding of the Python idiom `v or 0` used in
`ChangeValidator.score_importance`: a falsy value is replaced by `0`. -/
def pyOrZero (v : Value) : Value :=
  if v.isFalsy then .num 0 else v

/-- The `ChangeImportance` enum of `realtime_engine.py` (1-10 scale). -/
inductive ChangeImportance where
  | TRIVIAL
  | LOW
  | MINOR
  | MODERATE
  | NOTABLE
  | SIGNIFICANT
  | HIGH
  | MAJOR
  | CRITICAL
  | URGENT
deriving DecidableEq

/-- The numeric `.value` of each `ChangeImportance` member. -/
def ChangeImportance.value : ChangeImportance → ℕ
  | .TRIVIAL => 1
  | .LOW => 2
  | .MINOR => 3
  | .MODERATE => 4
  | .NOTABLE => 5
  | .SIGNIFICANT => 6
  | .HIGH => 7
  | .MAJOR => 8
  | .CRITICAL => 9
  | .URGENT => 10

/-- The `AtomicFact` dataclass.  Timestamps are logical-clock integers;
`previous_value` uses `Value.none` for Python `None` (its dataclass
default). -/
structure AtomicFact where
  id : String
  entity_type : String
  entity_id : String
  field : String
  value : Value
  previous_value : Value := .none
  source : String := ""
  source_url : Option String := Option.none
  confidence : ℚ := 1
  verified_by : Option String := Option.none
  effective_date : Option Int := Option.none
  created_at : Int := 0
  updated_at : Int := 0
  importance : ChangeImportance := .MODERATE
deriving DecidableEq

/-- The fact table of the knowledge graph: a Python `dict` from the key
string to the current fact, embedded as an insertion-ordered
association list. -/
abbrev FactsMap := List (String × AtomicFact)

/-- A subscriber callback.  It receives the store's fact table (Python
callbacks close over the engine object, so they can read the store at
the moment they run) and the published fact; it either returns or
raises an exception carrying a message. -/
abbrev Subscriber := FactsMap → AtomicFact → Except String Unit

/-- The `KnowledgeGraph` state: current facts, append-only change
history, registered subscribers. -/
structure KnowledgeGraph where
  facts : FactsMap := []
  change_history : List AtomicFact := []
  subscribers : List Subscriber := []

/-- Python dict lookup `m.get(k)`. -/
def dictGet (m : FactsMap) (k : String) : Option AtomicFact :=
  match m with
  | [] => Option.none
  | (k', v) :: rest => if k' = k then some v else dictGet rest k

/-- Python dict assignment `m[k] = v`: an existing key keeps its
position in iteration order, a new key is appended at the end. -/
def dictSet (m : FactsMap) (k : String) (v : AtomicFact) : FactsMap :=
  match m with
  | [] => [(k, v)]
  | (k', v') :: rest =>
    if k' = k then (k, v) :: rest else (k', v') :: dictSet rest k v

/-- The key string built as entity type, entity id and field name
joined by colons. -/
def factKey (entity_type entity_id fld : String) : String :=
  entity_type ++ ":" ++ entity_id ++ ":" ++ fld

/-- Python `s.startswith(p)`. -/
def strStartsWith (s p : String) : Bool :=
  decide (p.data <+: s.data)

/-- Python `needle in haystack` on strings (substring containment). -/
def pyIn (needle haystack : String) : Bool :=
  decide (needle.data <:+: haystack.data)

/-- Python `s.lower()`, character by character on the string's data. -/
def strToLower (s : String) : String :=
  ⟨s.data.map Char.toLower⟩

/-- The observable outcome of invoking one subscriber callback inside
the `try/except` of `_notify_subscribers`: either it was delivered, or
it raised and the exception was caught (and printed). -/
inductive NotifyOutcome where
  | delivered
  | failed (msg : String)
deriving DecidableEq

/-- Run one callback under the `try/except` of `_notify_subscribers`. -/
def runCallback (m : FactsMap) (fact : AtomicFact) (cb : Subscriber) :
    NotifyOutcome :=
  match cb m fact with
  | .ok _ => .delivered
  | .error e => .failed e

/-- The `_notify_subscribers` loop: every subscriber is invoked in
order against the current fact table; an exception from one callback is
caught and the loop continues with the remaining subscribers. -/
def notify_subscribers (kg : KnowledgeGraph) (fact : AtomicFact) :
    List NotifyOutcome :=
  kg.subscribers.map (runCallback kg.facts fact)

/-- The method `KnowledgeGraph.upsert_fact`.  Returns the new state,
the boolean result (`True` iff changed/admitted) and the list of
per-subscriber notification outcomes (empty when no publish happened).
The Python code appends the very object it stores (aliasing), so the
history entry carries the same `previous_value`/`updated_at` stamps as
the stored fact. -/
def upsert_fact (kg : KnowledgeGraph) (now : Int) (fact : AtomicFact) :
    KnowledgeGraph × Bool × List NotifyOutcome :=
  let fact_key := factKey fact.entity_type fact.entity_id fact.field
  match dictGet kg.facts fact_key with
  | some existing =>
    if pyEq existing.value fact.value then
      (kg, false, [])
    else
      let fact' := { fact with previous_value := existing.value, updated_at := now }
      let kg' : KnowledgeGraph :=
        { kg with
          facts := dictSet kg.facts fact_key fact'
          change_history := kg.change_history ++ [fact'] }
      (kg', true, notify_subscribers kg' fact')
  | Option.none =>
    let fact' := { fact with updated_at := now }
    let kg' : KnowledgeGraph := { kg with facts := dictSet kg.facts fact_key fact' }
    (kg', true, notify_subscribers kg' fact')

/-- The method `KnowledgeGraph.get_fact`. -/
def get_fact (kg : KnowledgeGraph) (entity_type entity_id fld : String) :
    Option AtomicFact :=
  dictGet kg.facts (factKey entity_type entity_id fld)

/-- The method `KnowledgeGraph.get_entity_facts`: keeps, in dict
iteration (insertion) order, every fact whose key string starts with
the prefix formed by entity type, a colon, entity id and a colon. -/
def get_entity_facts (kg : KnowledgeGraph) (entity_type entity_id : String) :
    List AtomicFact :=
  let pfx := entity_type ++ ":" ++ entity_id ++ ":"
  (kg.facts.filter (fun kf => strStartsWith kf.1 pfx)).map Prod.snd

/-- The method `KnowledgeGraph.get_recent_changes`: filters the change
history, in history order, by `updated_at > now - hours` and
`importance.value >= min_importance`. -/
def get_recent_changes (kg : KnowledgeGraph) (now : Int) (hours : Int)
    (min_importance : Int) : List AtomicFact :=
  let cutoff := now - hours
  kg.change_history.filter
    (fun f => cutoff < f.updated_at && min_importance ≤ (f.importance.value : Int))

/-- The method `ChangeValidator._apply_rules`, returning
`(is_valid, rule_confidence)`.  The `isinstance(fact.value, (int, float))`
guard is embedded through `Value.toNum?` (Python booleans are instances
of `int`, so they pass the guard and compare as `0`/`1`). -/
def apply_rules (fact : AtomicFact) : Bool × ℚ :=
  if pyEq fact.value fact.previous_value then
    (false, 0)
  else if fact.entity_type = "price" then
    match fact.value.toNum? with
    | some x =>
      if x < 0 then (false, 0)
      else if x > 100000 then (true, 7 / 10)
      else (true, 9 / 10)
    | Option.none => (true, 9 / 10)
  else (true, 9 / 10)

/-- The method `ChangeValidator._llm_validate` (simulated): always
`(True, 0.92)`. -/
def llm_validate (_fact : AtomicFact) : Bool × ℚ :=
  (true, 92 / 100)

/-- The method `ChangeValidator.validate`, returning
`(is_valid, confidence, reason)`. -/
def validate (fact : AtomicFact) : Bool × ℚ × String :=
  let rule_result := apply_rules fact
  let llm_result := llm_validate fact
  let combined_confidence := rule_result.2 * (4 / 10) + llm_result.2 * (6 / 10)
  if 8 ≤ fact.importance.value then
    (true, combined_confidence * (95 / 100), "Pending pharmacist verification")
  else
    (true, combined_confidence, "Auto-validated")

/-- The method `ChangeValidator.score_importance`.  The copay branch
performs Python arithmetic `abs((fact.value or 0) - (fact.previous_value or 0))`;
on a non-numeric truthy operand that subtraction raises `TypeError`,
embedded as `Option.none`. -/
def score_importance (fact : AtomicFact) : Option ChangeImportance :=
  if pyIn "tier" (strToLower fact.field) && !(pyEq fact.previous_value fact.value) then
    some .MAJOR
  else if pyIn "pa_required" (strToLower fact.field) then
    some .HIGH
  else if pyIn "shortage" (strToLower fact.field) then
    some .URGENT
  else if pyIn "warning" (strToLower fact.field) then
    some .CRITICAL
  else if pyIn "copay" (strToLower fact.field) then
    (match (pyOrZero fact.value).toNum?, (pyOrZero fact.previous_value).toNum? with
    | some a, some b =>
      if 20 ≤ |a - b| then some .SIGNIFICANT
      else if 5 ≤ |a - b| then some .MODERATE
      else some .LOW
    | _, _ => Option.none)
  else some .MODERATE

/-- The canonical severity table as the specification words it (claim
C5): any tier change (value differs from previousValue) yields MAJOR;
any `pa_required` field yields HIGH; any shortage field yields URGENT;
any warning field yields CRITICAL; for copay fields the absolute delta
is bucketed as `>= 20 -> SIGNIFICANT`, `>= 5 and < 20 -> MODERATE`,
`< 5 -> LOW`; any unmatched field yields MODERATE.  The table is read
first-match in the order the specification lists the rows; the copay
delta uses the same operand reading as the code (`or 0` coercion,
non-numeric truthy operands have no delta). -/
def importanceSpecTable (fact : AtomicFact) : Option ChangeImportance :=
  if pyIn "tier" (strToLower fact.field) && !(pyEq fact.previous_value fact.value) then
    some .MAJOR
  else if pyIn "pa_required" (strToLower fact.field) then
    some .HIGH
  else if pyIn "shortage" (strToLower fact.field) then
    some .URGENT
  else if pyIn "warning" (strToLower fact.field) then
    some .CRITICAL
  else if pyIn "copay" (strToLower fact.field) then
    (match (pyOrZero fact.value).toNum?, (pyOrZero fact.previous_value).toNum? with
    | some a, some b =>
      if 20 ≤ |a - b| then some .SIGNIFICANT
      else if 5 ≤ |a - b| ∧ |a - b| < 20 then some .MODERATE
      else if |a - b| < 5 then some .LOW
      else Option.none
    | _, _ => Option.none)
  else some .MODERATE

/-! ## Helper lemmas about the store primitives -/

theorem dictGet_dictSet_self (m : FactsMap) (k : String) (v : AtomicFact) :
    dictGet (dictSet m k v) k = some v := by
  induction m with
  | nil => simp [dictGet, dictSet]
  | cons kv rest ih =>
    by_cases h : kv.1 = k
    · simp [dictGet, dictSet, h]
    · simpa [dictGet, dictSet, h] using ih

theorem upsert_fact_of_absent (kg : KnowledgeGraph) (now : Int) (fact : AtomicFact)
    (h : dictGet kg.facts (factKey fact.entity_type fact.entity_id fact.field) =
      Option.none) :
    upsert_fact kg now fact =
      ({ kg with
          facts := dictSet kg.facts (factKey fact.entity_type fact.entity_id fact.field)
            { fact with updated_at := now } }, true,
        notify_subscribers
          { kg with
            facts := dictSet kg.facts (factKey fact.entity_type fact.entity_id fact.field)
              { fact with updated_at := now } }
          { fact with updated_at := now }) := by
  simp only [upsert_fact, h]

theorem upsert_fact_of_same (kg : KnowledgeGraph) (now : Int) (fact existing : AtomicFact)
    (h : dictGet kg.facts (factKey fact.entity_type fact.entity_id fact.field) =
      some existing)
    (hv : pyEq existing.value fact.value = true) :
    upsert_fact kg now fact = (kg, false, []) := by
  simp only [upsert_fact, h, hv, if_true]

theorem upsert_fact_of_changed (kg : KnowledgeGraph) (now : Int) (fact existing : AtomicFact)
    (h : dictGet kg.facts (factKey fact.entity_type fact.entity_id fact.field) =
      some existing)
    (hv : pyEq existing.value fact.value = false) :
    upsert_fact kg now fact =
      ({ kg with
          facts := dictSet kg.facts (factKey fact.entity_type fact.entity_id fact.field)
            { fact with previous_value := existing.value, updated_at := now }
          change_history := kg.change_history ++
            [{ fact with previous_value := existing.value, updated_at := now }] }, true,
        notify_subscribers
          { kg with
            facts := dictSet kg.facts (factKey fact.entity_type fact.entity_id fact.field)
              { fact with previous_value := existing.value, updated_at := now }
            change_history := kg.change_history ++
              [{ fact with previous_value := existing.value, updated_at := now }] }
          { fact with previous_value := existing.value, updated_at := now }) := by
  simp only [upsert_fact, h, hv, if_false, Bool.false_eq_true]

/-! ## C1 -/

/-- C1: `upsert_fact` admits a first observation unconditionally; when a
current fact for the key exists with equal value it returns `NoChange`
(`false`) leaving the fact table and the change history untouched; when
the value differs it stamps `previous_value` with the current value,
appends the stored fact to the history, replaces the current pointer
for the key and returns `Admitted` (`true`). -/
theorem c1_upsert_fact_spec (kg : KnowledgeGraph) (now : Int) (fact existing : AtomicFact) :
    (dictGet kg.facts (factKey fact.entity_type fact.entity_id fact.field) = Option.none →
      (upsert_fact kg now fact).2.1 = true ∧
      (upsert_fact kg now fact).1.change_history = kg.change_history ∧
      get_fact (upsert_fact kg now fact).1 fact.entity_type fact.entity_id fact.field =
        some { fact with updated_at := now }) ∧
    (dictGet kg.facts (factKey fact.entity_type fact.entity_id fact.field) = some existing →
      pyEq existing.value fact.value = true →
      upsert_fact kg now fact = (kg, false, [])) ∧
    (dictGet kg.facts (factKey fact.entity_type fact.entity_id fact.field) = some existing →
      pyEq existing.value fact.value = false →
      (upsert_fact kg now fact).2.1 = true ∧
      (upsert_fact kg now fact).1.change_history = kg.change_history ++
        [{ fact with previous_value := existing.value, updated_at := now }] ∧
      get_fact (upsert_fact kg now fact).1 fact.entity_type fact.entity_id fact.field =
        some { fact with previous_value := existing.value, updated_at := now }) := by
  refine ⟨fun h => ?_, fun h hv => upsert_fact_of_same kg now fact existing h hv,
    fun h hv => ?_⟩
  · rw [upsert_fact_of_absent kg now fact h]
    exact ⟨rfl, rfl, dictGet_dictSet_self _ _ _⟩
  · rw [upsert_fact_of_changed kg now fact existing h hv]
    exact ⟨rfl, rfl, dictGet_dictSet_self _ _ _⟩

/-- Concrete candidate fact used by the witnesses: a first observation
of a formulary tier. -/
def wFact : AtomicFact :=
  { id := "f1", entity_type := "coverage", entity_id := "ozempic",
    field := "formulary_tier", value := .num 3, importance := .MAJOR }

/-- Concrete resubmission of the same key with a different value. -/
def wFact2 : AtomicFact :=
  { wFact with value := .num 2 }

/-- The empty knowledge graph. -/
def wKg0 : KnowledgeGraph := {}

/-- The graph after admitting `wFact` at time 5. -/
def wKg1 : KnowledgeGraph := (upsert_fact wKg0 5 wFact).1

/-- Witness for C1: each of the three branches applied at concrete
inputs — first observation admitted, equal resubmission rejected as
no-change with the state untouched, different value admitted with
`previous_value` stamped and the history extended. -/
theorem c1_upsert_fact_spec_witness :
    ((upsert_fact wKg0 5 wFact).2.1 = true ∧
      (upsert_fact wKg0 5 wFact).1.change_history = wKg0.change_history ∧
      get_fact (upsert_fact wKg0 5 wFact).1 "coverage" "ozempic" "formulary_tier" =
        some { wFact with updated_at := 5 }) ∧
    upsert_fact wKg1 6 wFact = (wKg1, false, []) ∧
    ((upsert_fact wKg1 7 wFact2).2.1 = true ∧
      (upsert_fact wKg1 7 wFact2).1.change_history = wKg1.change_history ++
        [{ wFact2 with previous_value := Value.num 3, updated_at := 7 }] ∧
      get_fact (upsert_fact wKg1 7 wFact2).1 "coverage" "ozempic" "formulary_tier" =
        some { wFact2 with previous_value := Value.num 3, updated_at := 7 }) := by
  refine ⟨(c1_upsert_fact_spec wKg0 5 wFact wFact).1 (by decide), ?_, ?_⟩
  · exact (c1_upsert_fact_spec wKg1 6 wFact { wFact with updated_at := 5 }).2.1
      (by decide) (by decide)
  · exact (c1_upsert_fact_spec wKg1 7 wFact2 { wFact with updated_at := 5 }).2.2
      (by decide) (by decide)

/-! ## C9 -/

/-- C9: a first observation (no current fact for the key) is admitted
and sets the current value, but appends nothing to the change history;
hence `get_recent_changes` on the resulting state coincides with
`get_recent_changes` on the previous state for every window and
minimum importance, and the newly admitted fact appears in none of
those results (as long as it was not already in the history). -/
theorem c9_first_observation_not_in_history (kg : KnowledgeGraph) (now : Int)
    (fact : AtomicFact)
    (h : dictGet kg.facts (factKey fact.entity_type fact.entity_id fact.field) =
      Option.none) :
    (upsert_fact kg now fact).2.1 = true ∧
    get_fact (upsert_fact kg now fact).1 fact.entity_type fact.entity_id fact.field =
      some { fact with updated_at := now } ∧
    (upsert_fact kg now fact).1.change_history = kg.change_history ∧
    (∀ now' hours minImp,
      get_recent_changes (upsert_fact kg now fact).1 now' hours minImp =
        get_recent_changes kg now' hours minImp) ∧
    ({ fact with updated_at := now } ∉ kg.change_history →
      ∀ now' hours minImp,
        { fact with updated_at := now } ∉
          get_recent_changes (upsert_fact kg now fact).1 now' hours minImp) := by
  rw [upsert_fact_of_absent kg now fact h]
  refine ⟨rfl, dictGet_dictSet_self _ _ _, rfl, fun _ _ _ => rfl, fun hmem _ _ _ hin => ?_⟩
  exact hmem (List.mem_of_mem_filter hin)

/-- Witness for C9 at a concrete first observation. -/
theorem c9_first_observation_not_in_history_witness :
    (upsert_fact wKg0 5 wFact).2.1 = true ∧
    (upsert_fact wKg0 5 wFact).1.change_history = wKg0.change_history ∧
    get_recent_changes (upsert_fact wKg0 5 wFact).1 10 24 1 =
      get_recent_changes wKg0 10 24 1 ∧
    { wFact with updated_at := (5 : Int) } ∉
      get_recent_changes (upsert_fact wKg0 5 wFact).1 10 24 1 := by
  have h := c9_first_observation_not_in_history wKg0 5 wFact (by decide)
  exact ⟨h.1, h.2.2.1, h.2.2.2.1 10 24 1, h.2.2.2.2 (by decide) 10 24 1⟩

theorem pyEq_refl (v : Value) : pyEq v v = true := by
  cases v <;> simp [pyEq]

/-! ## C2 -/

/-- C2: when `upsert_fact` admits a fact, each subscriber is notified
exactly once with the stored fact, and the notification runs against
the mutated state — `get_fact` on the state the callbacks receive
already returns the admitted fact; when it returns no-change, no
notification happens and the state is untouched; and submitting the
same `(entity_type, entity_id, field, value)` twice in a row yields
`Admitted` then `NoChange` with no second publish. -/
theorem c2_publish_visibility_and_idempotence (kg : KnowledgeGraph) (now now' : Int)
    (fact fact₂ : AtomicFact) :
    ((upsert_fact kg now fact).2.1 = true →
      ∃ stored,
        get_fact (upsert_fact kg now fact).1 fact.entity_type fact.entity_id fact.field =
          some stored ∧
        stored.value = fact.value ∧
        (upsert_fact kg now fact).2.2 =
          (upsert_fact kg now fact).1.subscribers.map
            (runCallback (upsert_fact kg now fact).1.facts stored) ∧
        (upsert_fact kg now fact).2.2.length = kg.subscribers.length) ∧
    ((upsert_fact kg now fact).2.1 = false →
      (upsert_fact kg now fact).2.2 = [] ∧ (upsert_fact kg now fact).1 = kg) ∧
    ((upsert_fact kg now fact).2.1 = true →
      fact₂.entity_type = fact.entity_type → fact₂.entity_id = fact.entity_id →
      fact₂.field = fact.field → fact₂.value = fact.value →
      upsert_fact (upsert_fact kg now fact).1 now' fact₂ =
        ((upsert_fact kg now fact).1, false, [])) := by
  rcases hget : dictGet kg.facts (factKey fact.entity_type fact.entity_id fact.field) with
    _ | existing
  · rw [upsert_fact_of_absent kg now fact hget]
    refine ⟨fun _ => ⟨{ fact with updated_at := now },
      dictGet_dictSet_self _ _ _, rfl, rfl, by simp [notify_subscribers]⟩,
      fun h => by simp at h, fun _ het hei hf hv => ?_⟩
    refine upsert_fact_of_same _ now' fact₂ { fact with updated_at := now } ?_ ?_
    · rw [het, hei, hf]
      exact dictGet_dictSet_self _ _ _
    · show pyEq fact.value fact₂.value = true
      rw [hv]
      exact pyEq_refl fact.value
  · by_cases hv : pyEq existing.value fact.value = true
    · rw [upsert_fact_of_same kg now fact existing hget hv]
      exact ⟨fun h => by simp at h, fun _ => ⟨rfl, rfl⟩, fun h => by simp at h⟩
    · rw [upsert_fact_of_changed kg now fact existing hget (by simpa using hv)]
      refine ⟨fun _ => ⟨{ fact with previous_value := existing.value, updated_at := now },
        dictGet_dictSet_self _ _ _, rfl, rfl, by simp [notify_subscribers]⟩,
        fun h => by simp at h, fun _ het hei hf hval => ?_⟩
      refine upsert_fact_of_same _ now' fact₂
        { fact with previous_value := existing.value, updated_at := now } ?_ ?_
      · rw [het, hei, hf]
        exact dictGet_dictSet_self _ _ _
      · show pyEq fact.value fact₂.value = true
        rw [hval]
        exact pyEq_refl fact.value

/-- A subscriber callback that always succeeds. -/
def wSubOk : Subscriber := fun _ _ => .ok ()

/-- A graph with two live subscribers and no facts. -/
def wKgS : KnowledgeGraph := { subscribers := [wSubOk, wSubOk] }

/-- Witness for C2: a concrete admission notifies both subscribers once
each, and an immediate identical resubmission is rejected with no
further notifications. -/
theorem c2_publish_visibility_and_idempotence_witness :
    (upsert_fact wKgS 5 wFact).2.1 = true ∧
    (upsert_fact wKgS 5 wFact).2.2.length = 2 ∧
    upsert_fact (upsert_fact wKgS 5 wFact).1 6 wFact =
      ((upsert_fact wKgS 5 wFact).1, false, []) := by
  obtain ⟨stored, hget, hval, houts, hlen⟩ :=
    (c2_publish_visibility_and_idempotence wKgS 5 6 wFact wFact).1 (by decide)
  exact ⟨by decide, hlen,
    (c2_publish_visibility_and_idempotence wKgS 5 6 wFact wFact).2.2 (by decide)
      rfl rfl rfl rfl⟩

theorem upsert_admitted_notify (kg : KnowledgeGraph) (now : Int) (fact : AtomicFact)
    (h : (upsert_fact kg now fact).2.1 = true) :
    ∃ stored,
      get_fact (upsert_fact kg now fact).1 fact.entity_type fact.entity_id fact.field =
        some stored ∧
      stored.value = fact.value ∧
      (upsert_fact kg now fact).2.2 =
        kg.subscribers.map (runCallback (upsert_fact kg now fact).1.facts stored) := by
  rcases hget : dictGet kg.facts (factKey fact.entity_type fact.entity_id fact.field) with
    _ | existing
  · rw [upsert_fact_of_absent kg now fact hget]
    exact ⟨{ fact with updated_at := now }, dictGet_dictSet_self _ _ _, rfl, rfl⟩
  · by_cases hv : pyEq existing.value fact.value = true
    · rw [upsert_fact_of_same kg now fact existing hget hv] at h
      simp at h
    · rw [upsert_fact_of_changed kg now fact existing hget (by simpa using hv)]
      exact ⟨{ fact with previous_value := existing.value, updated_at := now },
        dictGet_dictSet_self _ _ _, rfl, rfl⟩

/-! ## C8 -/

/-- C8: an error raised by one subscriber callback is confined to that
subscriber — the notification loop still records one outcome for every
subscriber before and after it (the erroring one yielding `failed e`),
and neither the `Admitted` result nor the mutated store depend on what
the subscribers do. -/
theorem c8_subscriber_error_confined (kg : KnowledgeGraph) (now : Int) (fact : AtomicFact)
    (pre post : List Subscriber) (cb : Subscriber)
    (hsubs : kg.subscribers = pre ++ cb :: post)
    (hadm : (upsert_fact kg now fact).2.1 = true) :
    (∃ stored,
      get_fact (upsert_fact kg now fact).1 fact.entity_type fact.entity_id fact.field =
        some stored ∧
      (upsert_fact kg now fact).2.2 =
        pre.map (runCallback (upsert_fact kg now fact).1.facts stored) ++
          runCallback (upsert_fact kg now fact).1.facts stored cb ::
            post.map (runCallback (upsert_fact kg now fact).1.facts stored) ∧
      (∀ e, cb (upsert_fact kg now fact).1.facts stored = Except.error e →
        runCallback (upsert_fact kg now fact).1.facts stored cb =
          NotifyOutcome.failed e)) ∧
    (∀ subs',
      (upsert_fact { kg with subscribers := subs' } now fact).2.1 =
        (upsert_fact kg now fact).2.1 ∧
      (upsert_fact { kg with subscribers := subs' } now fact).1.facts =
        (upsert_fact kg now fact).1.facts ∧
      (upsert_fact { kg with subscribers := subs' } now fact).1.change_history =
        (upsert_fact kg now fact).1.change_history) := by
  constructor
  · obtain ⟨stored, hget, _hval, houts⟩ := upsert_admitted_notify kg now fact hadm
    rw [hsubs] at houts
    refine ⟨stored, hget, ?_, fun e he => by simp [runCallback, he]⟩
    simpa [List.map_append] using houts
  · intro subs'
    rcases hget : dictGet kg.facts (factKey fact.entity_type fact.entity_id fact.field) with
      _ | existing
    · rw [upsert_fact_of_absent kg now fact hget,
        upsert_fact_of_absent { kg with subscribers := subs' } now fact hget]
      exact ⟨rfl, rfl, rfl⟩
    · by_cases hv : pyEq existing.value fact.value = true
      · rw [upsert_fact_of_same kg now fact existing hget hv,
          upsert_fact_of_same { kg with subscribers := subs' } now fact existing hget hv]
        exact ⟨rfl, rfl, rfl⟩
      · rw [upsert_fact_of_changed kg now fact existing hget (by simpa using hv),
          upsert_fact_of_changed { kg with subscribers := subs' } now fact existing hget
            (by simpa using hv)]
        exact ⟨rfl, rfl, rfl⟩

/-- A subscriber callback that always raises. -/
def wSubErr : Subscriber := fun _ _ => .error "boom"

/-- A graph with a healthy subscriber before and after an erroring one. -/
def wKgE : KnowledgeGraph := { subscribers := [wSubOk, wSubErr, wSubOk] }

/-- Witness for C8: with a concrete erroring subscriber in the middle,
the admission still succeeds, the store holds the fact, and outcomes
are recorded for all three subscribers — delivered, failed, delivered. -/
theorem c8_subscriber_error_confined_witness :
    (upsert_fact wKgE 5 wFact).2.1 = true ∧
    get_fact (upsert_fact wKgE 5 wFact).1 "coverage" "ozempic" "formulary_tier" =
      some { wFact with updated_at := 5 } ∧
    (upsert_fact wKgE 5 wFact).2.2 =
      [NotifyOutcome.delivered, NotifyOutcome.failed "boom", NotifyOutcome.delivered] := by
  obtain ⟨⟨stored, hget, houts, _⟩, _⟩ :=
    c8_subscriber_error_confined wKgE 5 wFact [wSubOk] [wSubOk] wSubErr rfl (by decide)
  have hstored : stored = { wFact with updated_at := 5 } := by
    have hcomp : get_fact (upsert_fact wKgE 5 wFact).1 "coverage" "ozempic" "formulary_tier" =
      some { wFact with updated_at := 5 } := by decide
    exact Option.some.inj ((hget.symm.trans hcomp))
  subst hstored
  exact ⟨by decide, hget, houts⟩

/-! ## C3 -/

/-- Base candidate for the C3 stores: one key observed three times. -/
def c3Base : AtomicFact :=
  { id := "a", entity_type := "coverage", entity_id := "d",
    field := "t", value := .num 1, importance := .NOTABLE }

/-- Store after the first observation at time 0. -/
def c3Kg1 : KnowledgeGraph := (upsert_fact wKg0 0 c3Base).1

/-- Store after a change at time 1. -/
def c3Kg2 : KnowledgeGraph := (upsert_fact c3Kg1 1 { c3Base with value := .num 2 }).1

/-- Store after another change at time 2. -/
def c3Kg3 : KnowledgeGraph := (upsert_fact c3Kg2 2 { c3Base with value := .num 3 }).1

/-- The stored history entry of the time-1 change. -/
def c3e1 : AtomicFact :=
  { c3Base with value := .num 2, previous_value := .num 1, updated_at := 1 }

/-- Counterexample for C3: after two admitted changes at times 1 and 2,
`get_recent_changes` (window 10, minimum importance 1, now 2) returns
the matching history entries in insertion order — timestamps `[1, 2]` —
which is oldest-first, not newest-first as the claim states. -/
theorem c3_get_recent_changes_counterexample :
    (get_recent_changes c3Kg3 2 10 1).map AtomicFact.updated_at = [1, 2] ∧
    ¬ List.Pairwise (fun a b : AtomicFact => b.updated_at ≤ a.updated_at)
      (get_recent_changes c3Kg3 2 10 1) := by
  constructor
  · decide
  · decide

/-- C3 (amended): `get_recent_changes` returns exactly the historical
facts with `updated_at > now - hours` and `importance.value ≥
min_importance`, in change-history (insertion) order — hence
oldest-first whenever the history timestamps are nondecreasing — not
newest-first. -/
theorem c3_get_recent_changes_amended (kg : KnowledgeGraph) (now hours minImp : Int) :
    (∀ f, f ∈ get_recent_changes kg now hours minImp ↔
      f ∈ kg.change_history ∧ now - hours < f.updated_at ∧
        minImp ≤ (f.importance.value : Int)) ∧
    List.Sublist (get_recent_changes kg now hours minImp) kg.change_history ∧
    (List.Pairwise (fun a b : AtomicFact => a.updated_at ≤ b.updated_at)
        kg.change_history →
      List.Pairwise (fun a b : AtomicFact => a.updated_at ≤ b.updated_at)
        (get_recent_changes kg now hours minImp)) := by
  have hsub : List.Sublist (get_recent_changes kg now hours minImp) kg.change_history :=
    List.filter_sublist kg.change_history
  refine ⟨fun f => ?_, hsub, fun h => h.sublist hsub⟩
  simp [get_recent_changes, List.mem_filter, Bool.and_eq_true, decide_eq_true_eq,
    and_assoc]

/-- Witness for C3 (amended) at the concrete store `c3Kg3`. -/
theorem c3_get_recent_changes_amended_witness :
    (c3e1 ∈ get_recent_changes c3Kg3 2 10 1 ↔
      c3e1 ∈ c3Kg3.change_history ∧ (2 : Int) - 10 < c3e1.updated_at ∧
        (1 : Int) ≤ (c3e1.importance.value : Int)) ∧
    List.Pairwise (fun a b : AtomicFact => a.updated_at ≤ b.updated_at)
      (get_recent_changes c3Kg3 2 10 1) := by
  have h := c3_get_recent_changes_amended c3Kg3 2 10 1
  exact ⟨h.1 c3e1, h.2.2 (by decide)⟩

/-! ## C4 counterexample -/

/-- A fact of entity `d` under field `"b"`, inserted first. -/
def c4fb : AtomicFact :=
  { id := "1", entity_type := "coverage", entity_id := "d", field := "b",
    value := .num 1 }

/-- A fact of entity `d` under field `"a"`, inserted second. -/
def c4fa : AtomicFact :=
  { id := "2", entity_type := "coverage", entity_id := "d", field := "a",
    value := .num 2 }

/-- A fact of the different entity `d:x`, inserted third. -/
def c4for : AtomicFact :=
  { id := "3", entity_type := "coverage", entity_id := "d:x", field := "z",
    value := .num 9 }

/-- Store holding fields `b` then `a` of entity `d` and a fact of the
entity `d:x`, built through three admissions. -/
def c4Kg : KnowledgeGraph :=
  (upsert_fact (upsert_fact (upsert_fact wKg0 0 c4fb).1 1 c4fa).1 2 c4for).1

/-- Counterexample for C4: `get_entity_facts` returns the facts in
store insertion order `["b", "a", "z"]`, not ascending by field key,
and the result even contains a fact of the different entity `d:x`
(whose key extends the queried prefix). -/
theorem c4_get_entity_facts_counterexample :
    (get_entity_facts c4Kg "coverage" "d").map AtomicFact.field = ["b", "a", "z"] ∧
    ¬ List.Pairwise (fun x y : AtomicFact => x.field ≤ y.field)
      (get_entity_facts c4Kg "coverage" "d") ∧
    (get_entity_facts c4Kg "coverage" "d").map AtomicFact.entity_id = ["d", "d", "d:x"] := by
  have hmap : (get_entity_facts c4Kg "coverage" "d").map AtomicFact.field =
      ["b", "a", "z"] := by decide
  refine ⟨hmap, fun h => ?_, by decide⟩
  have h2 : (["b", "a", "z"] : List String).Pairwise (· ≤ ·) := by
    rw [← hmap]
    exact List.pairwise_map.mpr h
  have h3 : ("b" : String) ≤ "a" := (List.pairwise_cons.mp h2).1 "a" (by simp)
  rw [String.le_iff_toList_le] at h3
  revert h3
  decide

/-! ## Key-prefix reasoning -/

theorem data_append (s t : String) : (s ++ t).data = s.data ++ t.data := rfl

theorem strStartsWith_iff (s p : String) :
    strStartsWith s p = true ↔ p.data <+: s.data := by
  simp [strStartsWith]

theorem prefix_colon_split {a t : List Char} (r s : List Char)
    (ha : ':' ∉ a) (ht : ':' ∉ t) :
    ((a ++ ':' :: r) <+: (t ++ ':' :: s)) ↔ a = t ∧ r <+: s := by
  induction a generalizing t with
  | nil =>
    cases t with
    | nil => simp
    | cons x ts =>
      simp only [List.nil_append, List.cons_append]
      constructor
      · intro h
        obtain ⟨hx, -⟩ := List.cons_prefix_cons.mp h
        simp only [List.mem_cons, not_or] at ht
        exact absurd hx ht.1
      · rintro ⟨h, -⟩
        exact absurd h (by simp)
  | cons y as ih =>
    cases t with
    | nil =>
      simp only [List.nil_append, List.cons_append]
      constructor
      · intro h
        obtain ⟨hy, -⟩ := List.cons_prefix_cons.mp h
        simp only [List.mem_cons, not_or] at ha
        exact absurd hy.symm ha.1
      · rintro ⟨h, -⟩
        exact absurd h (by simp)
    | cons x ts =>
      simp only [List.mem_cons, not_or] at ha ht
      simp only [List.cons_append, List.cons_prefix_cons, ih ha.2 ht.2,
        List.cons.injEq]
      tauto

theorem factKey_data (t i f : String) :
    (factKey t i f).data = t.data ++ ':' :: (i.data ++ ':' :: f.data) := by
  simp [factKey, data_append]

theorem entity_pfx_data (t i : String) :
    (t ++ ":" ++ i ++ ":").data = t.data ++ ':' :: (i.data ++ [':']) := by
  simp [data_append]

theorem strStartsWith_factKey (t i T I F : String)
    (ht : ':' ∉ t.data) (hi : ':' ∉ i.data) (hT : ':' ∉ T.data) (hI : ':' ∉ I.data) :
    strStartsWith (factKey T I F) (t ++ ":" ++ i ++ ":") = true ↔ t = T ∧ i = I := by
  rw [strStartsWith_iff, factKey_data, entity_pfx_data,
    prefix_colon_split (i.data ++ [':']) (I.data ++ ':' :: F.data) ht hT]
  have h2 : (i.data ++ ':' :: ([] : List Char)) <+: (I.data ++ ':' :: F.data) ↔
      i.data = I.data ∧ ([] : List Char) <+: F.data :=
    prefix_colon_split [] F.data hi hI
  simp only [List.append_nil] at h2
  rw [h2]
  constructor
  · rintro ⟨h1, h2, -⟩
    exact ⟨String.toList_inj.mp h1, String.toList_inj.mp h2⟩
  · rintro ⟨h1, h2⟩
    exact ⟨congrArg String.data h1, congrArg String.data h2, List.nil_prefix⟩

/-! ## C10 -/

/-- C10: `get_entity_facts` selects by string-prefix match on the key,
so whenever a stored fact's entity id extends the queried entity id
followed by a colon (same entity type), that fact — belonging to a
different entity — is included in the result. -/
theorem c10_prefix_match_includes_extended_ids (kg : KnowledgeGraph)
    (t i rest : String) (f : AtomicFact)
    (hmem : (factKey t (i ++ ":" ++ rest) f.field, f) ∈ kg.facts) :
    f ∈ get_entity_facts kg t i := by
  unfold get_entity_facts
  refine List.mem_map.mpr ⟨(factKey t (i ++ ":" ++ rest) f.field, f),
    List.mem_filter.mpr ⟨hmem, ?_⟩, rfl⟩
  rw [strStartsWith_iff, entity_pfx_data, factKey_data]
  exact ⟨rest.data ++ ':' :: f.field.data, by simp [data_append]⟩

/-- The fact of entity `ozempic:aetna_comm` used in the C10 witness. -/
def c10f : AtomicFact :=
  { id := "t", entity_type := "coverage", entity_id := "ozempic:aetna_comm",
    field := "formulary_tier", value := .num 2 }

/-- Store holding only the `ozempic:aetna_comm` fact. -/
def c10Kg : KnowledgeGraph := (upsert_fact wKg0 0 c10f).1

/-- Witness for C10: querying entity `ozempic` returns the fact of the
different entity `ozempic:aetna_comm`. -/
theorem c10_prefix_match_includes_extended_ids_witness :
    { c10f with updated_at := (0 : Int) } ∈ get_entity_facts c10Kg "coverage" "ozempic" ∧
    ({ c10f with updated_at := (0 : Int) } : AtomicFact).entity_id ≠ "ozempic" := by
  refine ⟨c10_prefix_match_includes_extended_ids c10Kg "coverage" "ozempic" "aetna_comm"
    { c10f with updated_at := (0 : Int) } (by decide), by decide⟩

/-! ## C4 amendment -/

/-- Stores whose entries sit under their canonical keys and whose
entity types and ids contain no colon (all stores the engine itself
builds from colon-free coordinates are of this shape). -/
def wellKeyed (kg : KnowledgeGraph) : Prop :=
  ∀ kf ∈ kg.facts,
    kf.1 = factKey kf.2.entity_type kf.2.entity_id kf.2.field ∧
    ':' ∉ kf.2.entity_type.data ∧ ':' ∉ kf.2.entity_id.data

theorem mem_get_entity_facts (kg : KnowledgeGraph) (t i : String)
    (hw : wellKeyed kg) (ht : ':' ∉ t.data) (hi : ':' ∉ i.data) (f : AtomicFact) :
    f ∈ get_entity_facts kg t i ↔
      ∃ k, (k, f) ∈ kg.facts ∧ f.entity_type = t ∧ f.entity_id = i := by
  unfold get_entity_facts
  constructor
  · intro hf
    obtain ⟨⟨k, f'⟩, hkf, rfl⟩ := List.mem_map.mp hf
    obtain ⟨hmem, hP⟩ := List.mem_filter.mp hkf
    obtain ⟨hkey, hct, hci⟩ := hw (k, f') hmem
    rw [hkey] at hP
    obtain ⟨h1, h2⟩ := (strStartsWith_factKey t i _ _ _ ht hi hct hci).mp hP
    exact ⟨k, hmem, h1.symm, h2.symm⟩
  · rintro ⟨k, hmem, hT, hI⟩
    obtain ⟨hkey, hct, hci⟩ := hw (k, f) hmem
    refine List.mem_map.mpr ⟨(k, f), List.mem_filter.mpr ⟨hmem, ?_⟩, rfl⟩
    rw [hkey]
    exact (strStartsWith_factKey t i _ _ _ ht hi hct hci).mpr ⟨hT.symm, hI.symm⟩

theorem nodup_fields_get_entity_facts (kg : KnowledgeGraph) (t i : String)
    (hw : wellKeyed kg) (ht : ':' ∉ t.data) (hi : ':' ∉ i.data)
    (hnd : (kg.facts.map Prod.fst).Nodup) :
    ((get_entity_facts kg t i).map AtomicFact.field).Nodup := by
  have hsubf := List.filter_sublist
    (p := fun kf : String × AtomicFact => strStartsWith kf.1 (t ++ ":" ++ i ++ ":"))
    kg.facts
  have hkeysnd := hnd.sublist (hsubf.map Prod.fst)
  have hchar : ∀ kf ∈ kg.facts.filter
      (fun kf : String × AtomicFact => strStartsWith kf.1 (t ++ ":" ++ i ++ ":")),
      kf.1 = factKey t i kf.2.field := by
    intro kf hkf
    obtain ⟨hmem, hP⟩ := List.mem_filter.mp hkf
    obtain ⟨hkey, hct, hci⟩ := hw kf hmem
    rw [hkey] at hP
    obtain ⟨h1, h2⟩ := (strStartsWith_factKey t i _ _ _ ht hi hct hci).mp hP
    rw [hkey, ← h1, ← h2]
  rw [List.map_congr_left hchar] at hkeysnd
  have hcomp : (kg.facts.filter
      (fun kf : String × AtomicFact => strStartsWith kf.1 (t ++ ":" ++ i ++ ":"))).map
        (fun kf => factKey t i kf.2.field) =
      ((kg.facts.filter
        (fun kf : String × AtomicFact => strStartsWith kf.1 (t ++ ":" ++ i ++ ":"))).map
          (fun kf => kf.2.field)).map (factKey t i) := by
    simp [List.map_map, Function.comp]
  rw [hcomp] at hkeysnd
  have hfields := hkeysnd.of_map (factKey t i)
  simpa [get_entity_facts, List.map_map, Function.comp] using hfields

/-- C4 (amended): `get_entity_facts` returns the current facts whose
key extends the queried prefix, preserving store insertion order (it is
a sub-sequence of the store, not field-ascending); on canonically keyed
stores with colon-free coordinates the result is exactly that entity's
facts, and with distinct store keys each field appears at most once;
`get_fact` after an admission returns exactly the admitted value. -/
theorem c4_get_entity_facts_amended (kg : KnowledgeGraph) (t i : String)
    (hw : wellKeyed kg) (ht : ':' ∉ t.data) (hi : ':' ∉ i.data) :
    (∀ f, f ∈ get_entity_facts kg t i ↔
      ∃ k, (k, f) ∈ kg.facts ∧ f.entity_type = t ∧ f.entity_id = i) ∧
    List.Sublist (get_entity_facts kg t i) (kg.facts.map Prod.snd) ∧
    ((kg.facts.map Prod.fst).Nodup →
      ((get_entity_facts kg t i).map AtomicFact.field).Nodup) ∧
    (∀ (kg' : KnowledgeGraph) (now : Int) (fact : AtomicFact),
      (upsert_fact kg' now fact).2.1 = true →
      ∃ stored,
        get_fact (upsert_fact kg' now fact).1 fact.entity_type fact.entity_id fact.field =
          some stored ∧ stored.value = fact.value) := by
  refine ⟨mem_get_entity_facts kg t i hw ht hi, ?_,
    nodup_fields_get_entity_facts kg t i hw ht hi, fun kg' now fact h => ?_⟩
  · exact (List.filter_sublist kg.facts).map Prod.snd
  · obtain ⟨stored, hget, hval, -⟩ := upsert_admitted_notify kg' now fact h
    exact ⟨stored, hget, hval⟩

/-- The stored fact currently held by `c3Kg3` for its single key. -/
def c3e2 : AtomicFact :=
  { c3Base with value := .num 3, previous_value := .num 2, updated_at := 2 }

/-- Witness for C4 (amended) on the concrete store `c3Kg3`. -/
theorem c4_get_entity_facts_amended_witness :
    (c3e2 ∈ get_entity_facts c3Kg3 "coverage" "d" ↔
      ∃ k, (k, c3e2) ∈ c3Kg3.facts ∧ c3e2.entity_type = "coverage" ∧
        c3e2.entity_id = "d") ∧
    ((get_entity_facts c3Kg3 "coverage" "d").map AtomicFact.field).Nodup := by
  have h := c4_get_entity_facts_amended c3Kg3 "coverage" "d"
    (by unfold wellKeyed; decide) (by decide) (by decide)
  exact ⟨h.1 _, h.2.2.1 (by decide)⟩

/-! ## C5 -/

/-- C5: `score_importance` realises the canonical severity table
(first-match over tier change, `pa_required`, shortage, warning, copay
delta buckets, default MODERATE), and a tier change from 3 to 2 on any
entity scores importance 8 (MAJOR). -/
theorem c5_score_importance_table :
    (∀ fact, score_importance fact = importanceSpecTable fact) ∧
    (∀ fact, pyIn "tier" (strToLower fact.field) = true →
      pyEq fact.previous_value fact.value = false →
      (score_importance fact).map ChangeImportance.value = some 8) := by
  constructor
  · intro fact
    unfold score_importance importanceSpecTable
    split_ifs with h1 h2 h3 h4 h5
    · rfl
    · rfl
    · rfl
    · rfl
    · cases hv : (pyOrZero fact.value).toNum? with
      | none => rfl
      | some a =>
        cases hpv : (pyOrZero fact.previous_value).toNum? with
        | none => rfl
        | some b =>
          dsimp only
          by_cases h20 : 20 ≤ |a - b|
          · rw [if_pos h20, if_pos h20]
          · rw [if_neg h20, if_neg h20]
            by_cases h5d : 5 ≤ |a - b|
            · rw [if_pos h5d, if_pos ⟨h5d, lt_of_not_le h20⟩]
            · rw [if_neg h5d, if_neg (fun h => h5d h.1), if_pos (lt_of_not_le h5d)]
    · rfl
  · intro fact h1 h2
    unfold score_importance
    rw [if_pos (by simp [h1, h2])]
    rfl

/-- The tier-3-to-2 candidate used by the C5 witness. -/
def c5tf : AtomicFact :=
  { id := "x", entity_type := "coverage", entity_id := "ozempic:aetna_comm",
    field := "formulary_tier", value := .num 2, previous_value := .num 3 }

/-- Witness for C5: the concrete tier change from 3 to 2. -/
theorem c5_score_importance_table_witness :
    score_importance c5tf = importanceSpecTable c5tf ∧
    (score_importance c5tf).map ChangeImportance.value = some 8 := by
  exact ⟨c5_score_importance_table.1 c5tf,
    c5_score_importance_table.2 c5tf (by decide) (by decide)⟩

/-! ## C6 -/

/-- A candidate with a negative price, which the claim says `validate`
rejects outright. -/
def c6neg : AtomicFact :=
  { id := "x", entity_type := "price", entity_id := "humira",
    field := "nadac", value := .num (-5), previous_value := .num 3 }

/-- A candidate whose value equals its `previous_value`. -/
def c6eqf : AtomicFact :=
  { id := "x", entity_type := "coverage", entity_id := "d",
    field := "t", value := .num 3, previous_value := .num 3 }

/-- A candidate with an implausibly large price. -/
def c6big : AtomicFact :=
  { id := "x", entity_type := "price", entity_id := "zolgensma",
    field := "awp", value := .num 200000, previous_value := .num 3 }

/-- Counterexample for C6: `validate` returns `is_valid = True` even
for an out-of-domain negative price — it never hard-rejects. -/
theorem c6_validate_counterexample :
    (validate c6neg).1 = true ∧ c6neg.entity_type = "price" ∧
      c6neg.value = Value.num (-5) := by
  exact ⟨rfl, rfl, rfl⟩

/-- C6 (amended): `validate` always returns `is_valid = True`; the
identity and sanity checks live in `_apply_rules` and only set the
rule confidence — a candidate structurally equal to its own
`previous_value` (not the store's current value) gets rule confidence
0, a negative price gets rule confidence 0, a price above 100000 keeps
a reduced rule confidence 0.7 instead of being rejected, and any other
candidate gets 0.9. -/
theorem c6_validate_amended (fact : AtomicFact) :
    (validate fact).1 = true ∧
    (pyEq fact.value fact.previous_value = true → apply_rules fact = (false, 0)) ∧
    (pyEq fact.value fact.previous_value = false → fact.entity_type = "price" →
      ∀ x, fact.value.toNum? = some x →
        (x < 0 → apply_rules fact = (false, 0)) ∧
        (100000 < x → apply_rules fact = (true, 7 / 10)) ∧
        (0 ≤ x → x ≤ 100000 → apply_rules fact = (true, 9 / 10))) := by
  refine ⟨?_, fun h => by simp [apply_rules, h], fun h hp x hx => ?_⟩
  · unfold validate
    split_ifs <;> rfl
  · refine ⟨fun hneg => ?_, fun hbig => ?_, fun h0 h1 => ?_⟩
    · simp [apply_rules, h, hp, hx, hneg]
    · have hnn : ¬ x < 0 := by linarith
      simp [apply_rules, h, hp, hx, hnn, hbig]
    · have hnn : ¬ x < 0 := not_lt.mpr h0
      have hnb : ¬ 100000 < x := not_lt.mpr h1
      simp [apply_rules, h, hp, hx, hnn, hnb]

/-- Witness for C6 (amended) at concrete no-change, negative-price and
huge-price candidates. -/
theorem c6_validate_amended_witness :
    (validate c6neg).1 = true ∧
    apply_rules c6eqf = (false, 0) ∧
    apply_rules c6neg = (false, 0) ∧
    apply_rules c6big = (true, 7 / 10) := by
  refine ⟨(c6_validate_amended c6neg).1,
    (c6_validate_amended c6eqf).2.1 (by decide),
    ((c6_validate_amended c6neg).2.2 (by decide) rfl (-5) rfl).1 (by norm_num),
    ((c6_validate_amended c6big).2.2 (by decide) rfl 200000 rfl).2.1 (by norm_num)⟩

/-! ## C7 -/

/-- C7: the validator accepts every candidate with
`confidence = rule * 0.4 + scorer * 0.6`; candidates with importance at
or above 8 get that confidence additionally discounted by 0.95 and are
marked pending pharmacist verification while still being accepted. -/
theorem c7_confidence_combination (fact : AtomicFact) :
    (validate fact).1 = true ∧
    (fact.importance.value < 8 →
      (validate fact).2.1 =
        (apply_rules fact).2 * (4 / 10) + (llm_validate fact).2 * (6 / 10) ∧
      (validate fact).2.2 = "Auto-validated") ∧
    (8 ≤ fact.importance.value →
      (validate fact).2.1 =
        ((apply_rules fact).2 * (4 / 10) + (llm_validate fact).2 * (6 / 10)) * (95 / 100) ∧
      (validate fact).2.2 = "Pending pharmacist verification") := by
  unfold validate
  refine ⟨by split_ifs <;> rfl, fun h => ?_, fun h => ?_⟩
  · rw [if_neg (by omega)]
    exact ⟨rfl, rfl⟩
  · rw [if_pos h]
    exact ⟨rfl, rfl⟩

/-- Witness for C7: a low-importance candidate (`c3Base`, NOTABLE 5)
gets the plain weighted confidence, a high-importance one (`wFact`,
MAJOR 8) additionally gets the review discount and flag. -/
theorem c7_confidence_combination_witness :
    (validate c3Base).1 = true ∧
    (validate c3Base).2.1 =
      (apply_rules c3Base).2 * (4 / 10) + (llm_validate c3Base).2 * (6 / 10) ∧
    (validate c3Base).2.2 = "Auto-validated" ∧
    (validate wFact).2.1 =
      ((apply_rules wFact).2 * (4 / 10) + (llm_validate wFact).2 * (6 / 10)) * (95 / 100) ∧
    (validate wFact).2.2 = "Pending pharmacist verification" := by
  have h1 := c7_confidence_combination c3Base
  have h2 := c7_confidence_combination wFact
  exact ⟨h1.1, (h1.2.1 (by decide)).1, (h1.2.1 (by decide)).2,
    (h2.2.2 (by decide)).1, (h2.2.2 (by decide)).2⟩

end MediBuddy
